import Mathlib

/-!
Shallow embedding of the core of `mcp_python_toolbox`:
`FileOperations` (path confinement, file deletion), `CodeExecutor`
(staged temp-file execution), `ProjectManager` (dependency install
resolution and conflict detection), `CodeAnalyzer` (formatting and
lint-report parsing), and the `PythonToolboxServer.execute_python`
tool handler.

Paths are modelled as component lists; the filesystem is symlink-free,
so `Path.resolve()` is lexical `..`/`.` normalisation.  String helper
functions are defined by structural recursion over the character list
so that concrete instances reduce in the kernel.
-/

/-- List-based model of Python `str.startswith` (string prefix test). -/
def startswith (s pre : String) : Bool :=
  pre.toList.isPrefixOf s.toList

/-- Join a list of strings with a separator, as `sep.join(parts)`. -/
def joinWith (sep : String) : List String → String
  | [] => ""
  | [x] => x
  | x :: y :: xs => x ++ sep ++ joinWith sep (y :: xs)

/-- Helper for `pySplit`: accumulate the current field (reversed). -/
def splitCharAux (sep : Char) : List Char → List Char → List (List Char)
  | [], cur => [cur.reverse]
  | c :: cs, cur =>
    if c = sep then cur.reverse :: splitCharAux sep cs []
    else splitCharAux sep cs (c :: cur)

/-- Python `s.split(sep)` for a one-character separator:
`"".split(':') = [""]`, `"a:b".split(':') = ["a", "b"]`. -/
def pySplit (sep : Char) (s : String) : List String :=
  (splitCharAux sep s.toList []).map fun cs => String.mk cs

/-- Python `c in s` membership test for a single character. -/
def pyContains (s : String) (c : Char) : Bool :=
  s.toList.any fun x => x = c

/-- The whitespace characters removed by Python `str.strip()`
(ASCII fragment: space, tab, newline, carriage return, vertical tab,
form feed). -/
def isPySpace (c : Char) : Bool :=
  c = ' ' || c = '\t' || c = '\n' || c = '\r' || c.toNat = 11 || c.toNat = 12

/-- Python `str.strip()`: drop leading and trailing whitespace. -/
def pyStrip (s : String) : String :=
  String.mk (((s.toList.dropWhile isPySpace).reverse.dropWhile isPySpace).reverse)

/-- A path argument as handed to `pathlib.Path`: whether it is absolute,
plus its components. -/
structure PyPath where
  absolute : Bool
  comps : List String
  deriving DecidableEq, Repr

namespace FileOperations

/-- Lexical normalisation performed by `Path.resolve()` on a symlink-free
filesystem: `.` and empty components vanish, `..` removes the previous
component (and stays at the root when there is none). -/
def resolveComps (cs : List String) : List String :=
  cs.foldl
    (fun acc c =>
      if c = "." ∨ c = "" then acc
      else if c = ".." then acc.dropLast
      else acc ++ [c])
    []

/-- `str(path)` for an absolute path given by its components. -/
def pathStr (cs : List String) : String :=
  "/" ++ joinWith "/" cs

/-- `workspace_root / Path(path)`: an absolute argument replaces the base. -/
def joinPath (root : List String) (p : PyPath) : List String :=
  if p.absolute then p.comps else root ++ p.comps

/-- `FileOperations._validate_path`: resolve the joined path, then accept
it iff `str(resolved_path).startswith(str(self.workspace_root))`;
`none` models the raised `ValueError`. -/
def validate_path (root : List String) (p : PyPath) : Option (List String) :=
  let resolved_path := resolveComps (joinPath root p)
  if startswith (pathStr resolved_path) (pathStr root) then some resolved_path
  else none

/-- A resolved path is inside the workspace root iff the root's components
lead it. -/
def insideRoot (root r : List String) : Bool :=
  root.isPrefixOf r

/-- What a directory entry is: a regular file, a directory, or anything
else (`Path.is_file()` is true only for the first). -/
inductive FileKind where
  | file
  | dir
  | other
  deriving DecidableEq, Repr

/-- Errors raised by file operations: `ValueError` for a path outside the
workspace root, `FileNotFoundError` for a missing regular file. -/
inductive FileOpError where
  | pathOutsideRoot
  | fileNotFound
  deriving DecidableEq, Repr

/-- `FileOperations.delete_file`: validate the path; `os.remove` only when
the target is an existing regular file, otherwise raise
`FileNotFoundError`.  Returns the outcome together with the filesystem
after the call. -/
def delete_file (root : List String) (fs : List String → Option FileKind)
    (p : PyPath) :
    Except FileOpError Unit × (List String → Option FileKind) :=
  match validate_path root p with
  | none => (.error .pathOutsideRoot, fs)
  | some file_path =>
    match fs file_path with
    | some .file => (.ok (), fun q => if q = file_path then none else fs q)
    | _ => (.error .fileNotFound, fs)

end FileOperations

namespace CodeExecutor

/-- `subprocess.run(...)`'s completed-process data: captured stdout,
stderr, and the child's exit status. -/
structure SpawnOut where
  stdout : String
  stderr : String
  returncode : Int
  deriving DecidableEq, Repr

/-- The record returned by `execute_code`. -/
structure ExecResult where
  stdout : String
  stderr : String
  exit_code : Int
  deriving DecidableEq, Repr

/-- Errors `execute_code` can raise: `FileNotFoundError` (interpreter
missing at the named location) or `subprocess.SubprocessError`. -/
inductive ExecError where
  | fileNotFound (path : String)
  | subprocessError
  deriving DecidableEq, Repr

/-- The host environment an execution runs against: the resolved
workspace root, the platform (`os.name == 'nt'`), which files exist,
the outcome of spawning an interpreter on a script in a working
directory (`none` models a raised spawn failure), and the unique name
the secure temp-file facility hands out for this call. -/
structure ExecEnv where
  workspace_root : String
  isWindows : Bool
  fileExists : String → Bool
  spawn : String → String → String → Option SpawnOut
  tempName : String

/-- `self.venv_path = self.workspace_root / '.venv'`. -/
def venv_path (env : ExecEnv) : String :=
  env.workspace_root ++ "/.venv"

/-- The platform-dependent interpreter location inside the sandbox
environment (`Scripts/python.exe` on Windows, `bin/python` elsewhere). -/
def python_path_location (env : ExecEnv) : String :=
  if env.isWindows then venv_path env ++ "/Scripts/python.exe"
  else venv_path env ++ "/bin/python"

/-- `CodeExecutor._get_python_path`: return the interpreter location, or
raise `FileNotFoundError` when no binary exists there. -/
def get_python_path (env : ExecEnv) : Except ExecError String :=
  let python_path := python_path_location env
  if env.fileExists python_path then .ok python_path
  else .error (.fileNotFound python_path)

/-- Everything observable about one `execute_code` call: the returned
value or raised error, the temp-directory contents after the call, and
the working directory and interpreter handed to `subprocess.run` (when
the spawn point was reached). -/
structure ExecOutcome where
  result : Except ExecError ExecResult
  files : String → Option String
  spawnedCwd : Option String
  spawnedInterpreter : Option String

/-- `CodeExecutor.execute_code`: stage the code into a fresh temp file,
then inside `try`: locate the interpreter, compute the effective
working directory (`working_dir` if supplied, else the workspace
root), spawn, and assemble the result; the `finally` block unlinks the
staged file on every exit path. -/
def execute_code (env : ExecEnv) (fs0 : String → Option String)
    (code : String) (working_dir : Option String) : ExecOutcome :=
  let temp_file_path := env.tempName
  let fs1 : String → Option String :=
    fun q => if q = temp_file_path then some code else fs0 q
  let unlink : (String → Option String) → String → Option String :=
    fun fs q => if q = temp_file_path then none else fs q
  match get_python_path env with
  | .error e =>
    { result := .error e, files := unlink fs1,
      spawnedCwd := none, spawnedInterpreter := none }
  | .ok python_path =>
    let work_dir := working_dir.getD env.workspace_root
    match env.spawn python_path temp_file_path work_dir with
    | none =>
      { result := .error .subprocessError, files := unlink fs1,
        spawnedCwd := some work_dir, spawnedInterpreter := some python_path }
    | some r =>
      { result := .ok { stdout := r.stdout, stderr := r.stderr,
                        exit_code := r.returncode },
        files := unlink fs1,
        spawnedCwd := some work_dir, spawnedInterpreter := some python_path }

end CodeExecutor

namespace PythonToolboxServer

/-- The `execute_python` tool handler: it forwards the code to
`CodeExecutor.execute_code` with `None` as the working directory. -/
def execute_python (env : CodeExecutor.ExecEnv)
    (fs0 : String → Option String) (code : String) :
    CodeExecutor.ExecOutcome :=
  CodeExecutor.execute_code env fs0 code none

end PythonToolboxServer

namespace ProjectManager

/-- Whether every release segment is zero. -/
def allZero (v : List Nat) : Bool :=
  v.all fun x => x = 0

/-- Version comparison on dotted release segments, shorter versions
padded with zeros (`1.0 == 1.0.0`), as the packaging collaborator
orders plain releases. -/
def verCmp : List Nat → List Nat → Ordering
  | [], b => if allZero b then .eq else .lt
  | a :: as, [] => if allZero (a :: as) then .eq else .gt
  | a :: as, b :: bs =>
    if a < b then .lt else if b < a then .gt else verCmp as bs

/-- A comparison operator occurring in a version specifier. -/
inductive SpecOp where
  | ge
  | gt
  | le
  | lt
  | eq
  | ne
  deriving DecidableEq, Repr

/-- Whether an operator accepts the given comparison outcome between the
installed version and the clause's version. -/
def opHolds (op : SpecOp) (o : Ordering) : Bool :=
  match op with
  | .ge => o == .gt || o == .eq
  | .gt => o == .gt
  | .le => o == .lt || o == .eq
  | .lt => o == .lt
  | .eq => o == .eq
  | .ne => !(o == .eq)

/-- `req.specifier.contains(version)`: every clause of the specifier must
accept the version. -/
def specContains (spec : List (SpecOp × List Nat)) (v : List Nat) : Bool :=
  spec.all fun c => opHolds c.1 (verCmp v c.2)

/-- A parsed requirement: a distribution name and its version specifier. -/
structure Requirement where
  name : String
  specifier : List (SpecOp × List Nat)
  deriving DecidableEq, Repr

/-- An installed distribution: name, installed version, and declared
requirements. -/
structure Dist where
  name : String
  version : List Nat
  requires : List Requirement
  deriving DecidableEq, Repr

/-- One entry of the conflict report. -/
structure Conflict where
  package : String
  requires : Requirement
  installed : List Nat
  deriving DecidableEq, Repr

/-- `ProjectManager.check_dependency_conflicts`: for every installed
distribution and each of its requirements, when the required name is
itself installed and its installed version is outside the specifier,
emit a conflict entry. -/
def check_dependency_conflicts (installed : List Dist) : List Conflict :=
  installed.flatMap fun dist =>
    dist.requires.filterMap fun req =>
      match installed.find? (fun d => d.name == req.name) with
      | some d =>
        if specContains req.specifier d.version then none
        else some { package := dist.name, requires := req,
                    installed := d.version }
      | none => none

/-- What `install_dependencies` ends up asking pip to do. -/
inductive InstallAction where
  | pipInstallReq (path : String)
  | pipInstallDeps (deps : List String)
  | noInstall
  deriving DecidableEq, Repr

/-- Errors `install_dependencies` can raise before reaching pip. -/
inductive PMError where
  | interpreterNotFound
  | noRequirementsFound
  deriving DecidableEq, Repr

/-- The workspace state `install_dependencies` consults: whether the
sandbox interpreter exists, whether `requirements.txt` and
`pyproject.toml` exist in the workspace root, and the
`project.dependencies` list of `pyproject.toml` when it carries one. -/
structure PMEnv where
  workspace_root : String
  interpreterExists : Bool
  reqTxtExists : Bool
  pyprojectExists : Bool
  pyprojectDeps : Option (List String)
  deriving DecidableEq, Repr

/-- `ProjectManager._install_from_pyproject`: install the
`project.dependencies` list when present, otherwise silently do
nothing. -/
def install_from_pyproject (env : PMEnv) : Except PMError InstallAction :=
  match env.pyprojectDeps with
  | some deps => .ok (.pipInstallDeps deps)
  | none => .ok .noInstall

/-- `ProjectManager.install_dependencies`: resolve the interpreter first;
with an explicit requirements file run pip on it directly; otherwise
fall back from `requirements.txt` to `pyproject.toml`, raising
`FileNotFoundError` when neither exists. -/
def install_dependencies (env : PMEnv) (requirements_file : Option String) :
    Except PMError InstallAction :=
  if env.interpreterExists = false then .error .interpreterNotFound
  else
    match requirements_file with
    | some f => .ok (.pipInstallReq f)
    | none =>
      if env.reqTxtExists = false ∧ env.pyprojectExists = true then
        install_from_pyproject env
      else if env.reqTxtExists = false then .error .noRequirementsFound
      else .ok (.pipInstallReq (env.workspace_root ++ "/requirements.txt"))

end ProjectManager

namespace CodeAnalyzer

/-- The error `format_code` raises on an unsupported style
(`ValueError`). -/
inductive FormatError where
  | unsupportedStyle (style : String)
  deriving DecidableEq, Repr

/-- `CodeAnalyzer.format_code`, parametric in the two external
formatters: the black collaborator (`none` models it raising
`InvalidInput`/`ValueError`, in which case the input is returned
unchanged) and autopep8; any other style raises `ValueError`. -/
def format_code (blackFmt : String → Option String)
    (pep8Fmt : String → String) (code : String) (style : String) :
    Except FormatError String :=
  if style = "black" then
    match blackFmt code with
    | some formatted => .ok formatted
    | none => .ok code
  else if style = "pep8" then .ok (pep8Fmt code)
  else .error (.unsupportedStyle style)

/-- One lint issue; the source stores the third field under the key
`type`. -/
structure LintIssue where
  path : String
  line : String
  kind : String
  message : String
  deriving DecidableEq, Repr

/-- The report-parsing loop of `CodeAnalyzer.lint_code` over the linter's
output lines: keep lines containing `:` that split into at least three
fields; the message is the remaining fields re-joined with `:` and
stripped. -/
def lint_code (output_lines : List String) : List LintIssue :=
  output_lines.filterMap fun line =>
    if pyContains line ':' then
      let parts := pySplit ':' line
      if 3 ≤ parts.length then
        some { path := (parts.get? 0).getD "",
               line := (parts.get? 1).getD "",
               kind := (parts.get? 2).getD "",
               message := pyStrip (joinWith ":" (parts.drop 3)) }
      else none
    else none

/-- Modelled from the spec: the message field as the spec words it,
"everything after the third colon, preserving internal colons". -/
def spec_message_after_third_colon (line : String) : String :=
  joinWith ":" ((pySplit ':' line).drop 3)

end CodeAnalyzer

/-! Concrete instances used to exercise the embedding. -/

/-- A POSIX workspace whose sandbox environment was never created. -/
def envNoPy : CodeExecutor.ExecEnv :=
  { workspace_root := "/ws", isWindows := false,
    fileExists := fun _ => false, spawn := fun _ _ _ => none,
    tempName := "/tmp/t.py" }

/-- A POSIX workspace whose interpreter exists and whose child process
exits with status 3 and no output. -/
def envExit3 : CodeExecutor.ExecEnv :=
  { workspace_root := "/ws", isWindows := false,
    fileExists := fun _ => true,
    spawn := fun _ _ _ => some { stdout := "", stderr := "", returncode := 3 },
    tempName := "/tmp/t.py" }

/-- A filesystem holding a single directory `/w/d` and nothing else. -/
def exFS : List String → Option FileOperations.FileKind :=
  fun q => if q = ["w", "d"] then some .dir else none

/-- A workspace with an interpreter and a `pyproject.toml` that carries
no `project.dependencies` list, and no `requirements.txt`. -/
def pmEnvNoDeps : ProjectManager.PMEnv :=
  { workspace_root := "/ws", interpreterExists := true, reqTxtExists := false,
    pyprojectExists := true, pyprojectDeps := none }

/-- A workspace with an interpreter and a `requirements.txt`. -/
def pmEnvReq : ProjectManager.PMEnv :=
  { workspace_root := "/ws", interpreterExists := true, reqTxtExists := true,
    pyprojectExists := false, pyprojectDeps := none }

/-- Installed distribution `A` at version `1.0` with no requirements. -/
def distA : ProjectManager.Dist :=
  { name := "A", version := [1, 0], requires := [] }

/-- The requirement `A>=2.0`. -/
def reqA2 : ProjectManager.Requirement :=
  { name := "A", specifier := [(.ge, [2, 0])] }

/-- Installed distribution `B` at version `1.0` requiring `A>=2.0`. -/
def distB : ProjectManager.Dist :=
  { name := "B", version := [1, 0], requires := [reqA2] }


/-! Theorems about the embedded operations. -/

/-- Claim C1: `FileOperations._validate_path` is claimed to reject every
path resolving outside the workspace root, in particular paths resolving
to a sibling directory whose name extends the root's name as a string.
The code's `startswith` check has no trailing separator: with root
`/work`, the input `../work2` resolves to the sibling `/work2`, which is
not inside the root, yet validation accepts it and returns it. -/
theorem validate_path_accepts_sibling_escape :
    FileOperations.validate_path ["work"] ⟨false, ["..", "work2"]⟩
      = some ["work2"]
    ∧ FileOperations.insideRoot ["work"] ["work2"] = false := by
  constructor
  · rfl
  · rfl

/-- Claim C2: on every exit path of `CodeExecutor.execute_code` — normal
completion, missing-interpreter abort, spawn failure — the staged
temporary file is gone from the filesystem when the call returns, for
every environment, initial filesystem, code string and working
directory. -/
theorem execute_code_cleans_temp_file (env : CodeExecutor.ExecEnv)
    (fs0 : String → Option String) (code : String)
    (working_dir : Option String) :
    (CodeExecutor.execute_code env fs0 code working_dir).files env.tempName
      = none := by
  unfold CodeExecutor.execute_code
  cases hg : CodeExecutor.get_python_path env with
  | error e => simp [hg]
  | ok p =>
    cases hs : env.spawn p env.tempName (working_dir.getD env.workspace_root)
      with
    | none => simp [hg, hs]
    | some r => simp [hg, hs]

/-- Claim C3: when the interpreter binary is absent from its
platform-dependent location under `<workspaceRoot>/.venv`,
`CodeExecutor.execute_code` raises `FileNotFoundError` for every input
and never spawns anything; when the binary is present, no such error is
raised; and the only interpreter ever handed to the spawn call is the
sandbox one — there is no fallback. -/
theorem execute_code_requires_venv_interpreter (env : CodeExecutor.ExecEnv) :
    (env.fileExists (CodeExecutor.python_path_location env) = false →
      ∀ fs0 code working_dir,
        (CodeExecutor.execute_code env fs0 code working_dir).result
          = .error (.fileNotFound (CodeExecutor.python_path_location env))
        ∧ (CodeExecutor.execute_code env fs0 code
            working_dir).spawnedInterpreter = none)
    ∧ (env.fileExists (CodeExecutor.python_path_location env) = true →
      ∀ fs0 code working_dir p,
        (CodeExecutor.execute_code env fs0 code working_dir).result
          ≠ .error (.fileNotFound p))
    ∧ (∀ fs0 code working_dir p,
        (CodeExecutor.execute_code env fs0 code working_dir).spawnedInterpreter
          = some p → p = CodeExecutor.python_path_location env) := by
  refine ⟨fun h fs0 code working_dir => ?_,
          fun h fs0 code working_dir p => ?_,
          fun fs0 code working_dir p hp => ?_⟩
  · simp [CodeExecutor.execute_code, CodeExecutor.get_python_path, h]
  · cases hs : env.spawn (CodeExecutor.python_path_location env) env.tempName
        (working_dir.getD env.workspace_root) with
    | none =>
      simp [CodeExecutor.execute_code, CodeExecutor.get_python_path, h, hs]
    | some r =>
      simp [CodeExecutor.execute_code, CodeExecutor.get_python_path, h, hs]
  · by_cases h : env.fileExists (CodeExecutor.python_path_location env) = true
    · cases hs : env.spawn (CodeExecutor.python_path_location env) env.tempName
          (working_dir.getD env.workspace_root) with
      | none =>
        simp [CodeExecutor.execute_code, CodeExecutor.get_python_path, h, hs]
          at hp
        exact hp.symm
      | some r =>
        simp [CodeExecutor.execute_code, CodeExecutor.get_python_path, h, hs]
          at hp
        exact hp.symm
    · simp only [Bool.not_eq_true] at h
      simp [CodeExecutor.execute_code, CodeExecutor.get_python_path, h] at hp

/-- Witness for claim C3: with no sandbox environment, executing any code
fails with the interpreter-not-found error naming the POSIX location. -/
theorem execute_code_requires_venv_interpreter_witness :
    (CodeExecutor.execute_code envNoPy (fun _ => none) "print(1)" none).result
      = .error (.fileNotFound "/ws/.venv/bin/python") :=
  ((execute_code_requires_venv_interpreter envNoPy).1 rfl
    (fun _ => none) "print(1)" none).1

/-- Claim C4: whenever the child process is spawned and terminates,
`CodeExecutor.execute_code` returns `{stdout, stderr, exit_code}` with
the child's exit status as data — a non-zero status raises nothing. -/
theorem execute_code_nonzero_exit_is_data (env : CodeExecutor.ExecEnv)
    (fs0 : String → Option String) (code : String)
    (working_dir : Option String) (r : CodeExecutor.SpawnOut)
    (hpy : env.fileExists (CodeExecutor.python_path_location env) = true)
    (hsp : env.spawn (CodeExecutor.python_path_location env) env.tempName
            (working_dir.getD env.workspace_root) = some r) :
    (CodeExecutor.execute_code env fs0 code working_dir).result
      = .ok { stdout := r.stdout, stderr := r.stderr,
              exit_code := r.returncode } := by
  simp [CodeExecutor.execute_code, CodeExecutor.get_python_path, hpy, hsp]

/-- Witness for claim C4: a child exiting with status 3 yields a normal
result carrying exit code 3. -/
theorem execute_code_nonzero_exit_is_data_witness :
    (CodeExecutor.execute_code envExit3 (fun _ => none)
        "import sys; sys.exit(3)" none).result
      = .ok { stdout := "", stderr := "", exit_code := 3 } :=
  execute_code_nonzero_exit_is_data envExit3 (fun _ => none)
    "import sys; sys.exit(3)" none
    { stdout := "", stderr := "", returncode := 3 } rfl rfl

/-- Claim C9: the `execute_python` tool handler forwards to
`CodeExecutor.execute_code` with no working-directory override, so
whenever the child is spawned its working directory is the workspace
root — the unvalidated `working_dir` parameter is unreachable from the
tool surface. -/
theorem execute_python_tool_forces_workspace_cwd
    (env : CodeExecutor.ExecEnv) (fs0 : String → Option String)
    (code : String) :
    PythonToolboxServer.execute_python env fs0 code
      = CodeExecutor.execute_code env fs0 code none
    ∧ ∀ d, (PythonToolboxServer.execute_python env fs0 code).spawnedCwd
        = some d → d = env.workspace_root := by
  refine ⟨rfl, fun d hd => ?_⟩
  unfold PythonToolboxServer.execute_python CodeExecutor.execute_code at hd
  cases hg : CodeExecutor.get_python_path env with
  | error e => simp [hg] at hd
  | ok p =>
    cases hs : env.spawn p env.tempName env.workspace_root with
    | none => simp [hg, hs] at hd; exact hd.symm
    | some r => simp [hg, hs] at hd; exact hd.symm

/-- Witness for claim C9: on a workspace rooted at `/ws` with a live
interpreter, the tool handler spawns with working directory `/ws`. -/
theorem execute_python_tool_forces_workspace_cwd_witness :
    ("/ws" : String) = envExit3.workspace_root :=
  (execute_python_tool_forces_workspace_cwd envExit3 (fun _ => none)
    "print(1)").2 "/ws" rfl

/-- Claim C10: `FileOperations.delete_file` removes only existing regular
files.  For every validated path: when the target is an existing
regular file the call succeeds, removes exactly that entry and nothing
else; when the target is anything other than a regular file (a
directory, something else, or absent) it raises `FileNotFoundError`
and leaves the filesystem unchanged. -/
theorem delete_file_only_removes_regular_files (root : List String)
    (fs : List String → Option FileOperations.FileKind) (p : PyPath)
    (fp : List String)
    (hv : FileOperations.validate_path root p = some fp) :
    (fs fp = some .file →
       (FileOperations.delete_file root fs p).1 = .ok ()
       ∧ (FileOperations.delete_file root fs p).2 fp = none
       ∧ ∀ q, q ≠ fp → (FileOperations.delete_file root fs p).2 q = fs q)
    ∧ (fs fp ≠ some .file →
       (FileOperations.delete_file root fs p).1 = .error .fileNotFound
       ∧ ∀ q, (FileOperations.delete_file root fs p).2 q = fs q) := by
  constructor
  · intro hf
    refine ⟨?_, ?_, fun q hq => ?_⟩
    · simp [FileOperations.delete_file, hv, hf]
    · simp [FileOperations.delete_file, hv, hf]
    · simp [FileOperations.delete_file, hv, hf, hq]
  · intro hf
    cases hk : fs fp with
    | none =>
      exact ⟨by simp [FileOperations.delete_file, hv, hk],
             fun q => by simp [FileOperations.delete_file, hv, hk]⟩
    | some k =>
      cases k with
      | file => exact absurd hk hf
      | dir =>
        exact ⟨by simp [FileOperations.delete_file, hv, hk],
               fun q => by simp [FileOperations.delete_file, hv, hk]⟩
      | other =>
        exact ⟨by simp [FileOperations.delete_file, hv, hk],
               fun q => by simp [FileOperations.delete_file, hv, hk]⟩

/-- Witness for claim C10: deleting the directory `/w/d` in a workspace
rooted at `/w` raises `FileNotFoundError` and leaves the directory
entry in place. -/
theorem delete_file_only_removes_regular_files_witness :
    (FileOperations.delete_file ["w"] exFS ⟨false, ["d"]⟩).1
      = .error .fileNotFound
    ∧ (FileOperations.delete_file ["w"] exFS ⟨false, ["d"]⟩).2 ["w", "d"]
      = exFS ["w", "d"] := by
  have h := (delete_file_only_removes_regular_files ["w"] exFS
    ⟨false, ["d"]⟩ ["w", "d"] (by decide)).2 (by decide)
  exact ⟨h.1, h.2 ["w", "d"]⟩

/-- Counterexample for claim C5: with no explicit requirements file, no
`requirements.txt`, and a `pyproject.toml` carrying no
`project.dependencies` list, no dependency source exists, yet
`install_dependencies` silently succeeds installing nothing instead of
raising the claimed hard not-found error. -/
theorem install_dependencies_silently_noops_without_deps :
    ProjectManager.install_dependencies pmEnvNoDeps none
      = .ok .noInstall := by
  rfl

/-- Claim C5 (amended): `install_dependencies` resolves an explicitly
passed requirements file first, otherwise `requirements.txt` in the
workspace root when it exists, otherwise `pyproject.toml` when it
exists — installing its `project.dependencies` list when present and
silently installing nothing when that list is absent — and raises the
hard not-found error exactly when neither `requirements.txt` nor
`pyproject.toml` exists. -/
theorem install_dependencies_resolution_order (env : ProjectManager.PMEnv)
    (rf : Option String) (hpy : env.interpreterExists = true) :
    ProjectManager.install_dependencies env rf =
      match rf with
      | some f => .ok (.pipInstallReq f)
      | none =>
        if env.reqTxtExists = true then
          .ok (.pipInstallReq (env.workspace_root ++ "/requirements.txt"))
        else if env.pyprojectExists = true then
          match env.pyprojectDeps with
          | some deps => .ok (.pipInstallDeps deps)
          | none => .ok .noInstall
        else .error .noRequirementsFound := by
  unfold ProjectManager.install_dependencies ProjectManager.install_from_pyproject
  rw [hpy]
  cases rf with
  | some f => simp
  | none =>
    cases hr : env.reqTxtExists with
    | true => simp [hr]
    | false =>
      cases hpp : env.pyprojectExists with
      | true => simp [hr, hpp]
      | false => simp [hr, hpp]

/-- Witness for claim C5: with an interpreter and a `requirements.txt`
present, the call runs pip on `requirements.txt` in the workspace
root. -/
theorem install_dependencies_resolution_order_witness :
    ProjectManager.install_dependencies pmEnvReq none
      = .ok (.pipInstallReq "/ws/requirements.txt") := by
  have h := install_dependencies_resolution_order pmEnvReq none rfl
  simpa using h

/-- In a list of distributions with pairwise-distinct names, `find?` on a
name equality test locates exactly the member carrying that name. -/
theorem find_dist_of_nodup_names (installed : List ProjectManager.Dist)
    (h : (installed.map ProjectManager.Dist.name).Nodup)
    (d : ProjectManager.Dist) (hd : d ∈ installed) :
    installed.find? (fun x => x.name == d.name) = some d := by
  induction installed with
  | nil => cases hd
  | cons a t ih =>
    rw [List.map_cons, List.nodup_cons] at h
    rcases List.mem_cons.mp hd with rfl | hdt
    · rw [List.find?_cons_of_pos _ (by simp)]
    · have hne : ¬ a.name = d.name := by
        intro he
        exact h.1 (he ▸ List.mem_map_of_mem ProjectManager.Dist.name hdt)
      rw [List.find?_cons_of_neg _ (by simp [hne])]
      exact ih h.2 hdt

/-- Claim C6: for every set of installed distributions (distinct names),
`check_dependency_conflicts` reports exactly the (package,
requirement) pairs where the requirement names an installed
distribution whose installed version lies outside the requirement's
specifier, each entry carrying the offending package's name, the
unmet requirement and the installed version. -/
theorem check_dependency_conflicts_exact
    (installed : List ProjectManager.Dist)
    (h : (installed.map ProjectManager.Dist.name).Nodup)
    (c : ProjectManager.Conflict) :
    c ∈ ProjectManager.check_dependency_conflicts installed ↔
      ∃ dist ∈ installed, ∃ d ∈ installed,
        c.requires ∈ dist.requires ∧ c.package = dist.name ∧
        d.name = c.requires.name ∧ c.installed = d.version ∧
        ProjectManager.specContains c.requires.specifier d.version
          = false := by
  obtain ⟨cp, cr, ci⟩ := c
  unfold ProjectManager.check_dependency_conflicts
  rw [List.mem_flatMap]
  constructor
  · rintro ⟨dist, hdist, hc⟩
    rw [List.mem_filterMap] at hc
    rcases hc with ⟨req, hreq, hf⟩
    cases hfind : installed.find? (fun d => d.name == req.name) with
    | none => rw [hfind] at hf; cases hf
    | some d =>
      rw [hfind] at hf
      have hdmem := List.mem_of_find?_eq_some hfind
      have hdname : d.name = req.name := by
        have := List.find?_some hfind
        simpa using this
      cases hspec : ProjectManager.specContains req.specifier d.version with
      | true => simp [hspec] at hf
      | false =>
        simp only [hspec, Bool.false_eq_true, if_false, Option.some.injEq,
          ProjectManager.Conflict.mk.injEq] at hf
        obtain ⟨h1, h2, h3⟩ := hf
        subst h1
        subst h2
        subst h3
        exact ⟨dist, hdist, d, hdmem, hreq, rfl, hdname, rfl, hspec⟩
  · rintro ⟨dist, hdist, d, hd, hreqmem, hpkg, hname, hinst, hspec⟩
    dsimp only at hreqmem hpkg hname hinst hspec
    refine ⟨dist, hdist, ?_⟩
    rw [List.mem_filterMap]
    refine ⟨cr, hreqmem, ?_⟩
    have hfind : installed.find? (fun x => x.name == cr.name) = some d := by
      have hfd := find_dist_of_nodup_names installed h d hd
      rw [hname] at hfd
      exact hfd
    rw [hfind]
    simp [hspec, hpkg, hinst]

/-- Witness for claim C6: with `A` installed at `1.0` and `B` requiring
`A>=2.0`, the conflict report contains the entry naming package `B`,
requirement `A>=2.0` and installed version `1.0`. -/
theorem check_dependency_conflicts_exact_witness :
    ({ package := "B", requires := reqA2, installed := [1, 0] } :
        ProjectManager.Conflict)
      ∈ ProjectManager.check_dependency_conflicts [distA, distB] := by
  refine (check_dependency_conflicts_exact [distA, distB] (by decide)
    _).mpr ?_
  exact ⟨distB, by decide, distA, by decide, by decide⟩

/-- Counterexample for claim C7: on the report line
`"a.py:3:error: bad: use of x "`, the produced message is the
stripped `"bad: use of x"`, while everything after the third colon is
`" bad: use of x "` — the two differ, so the message is not literally
everything after the third colon. -/
theorem lint_code_strips_message_whitespace :
    CodeAnalyzer.lint_code ["a.py:3:error: bad: use of x "]
      = [{ path := "a.py", line := "3", kind := "error",
           message := "bad: use of x" }]
    ∧ CodeAnalyzer.spec_message_after_third_colon "a.py:3:error: bad: use of x "
      = " bad: use of x "
    ∧ (" bad: use of x " : String) ≠ "bad: use of x" := by
  refine ⟨?_, ?_, ?_⟩ <;> decide

/-- Claim C7 (amended): the lint report is parsed line by line; every
line without a colon produces no issue; every line splitting into at
least three colon-separated fields produces exactly one issue whose
message is everything after the third colon — internal colons
preserved — stripped of leading and trailing whitespace. -/
theorem lint_code_parsing_amended (line : String) (lines : List String) :
    (pyContains line ':' = false → CodeAnalyzer.lint_code [line] = [])
    ∧ (pyContains line ':' = true → 3 ≤ (pySplit ':' line).length →
        CodeAnalyzer.lint_code [line]
          = [{ path := ((pySplit ':' line).get? 0).getD "",
               line := ((pySplit ':' line).get? 1).getD "",
               kind := ((pySplit ':' line).get? 2).getD "",
               message :=
                 pyStrip (CodeAnalyzer.spec_message_after_third_colon line) }])
    ∧ CodeAnalyzer.lint_code (line :: lines)
        = CodeAnalyzer.lint_code [line] ++ CodeAnalyzer.lint_code lines := by
  refine ⟨fun h => ?_, fun h h3 => ?_, ?_⟩
  · simp [CodeAnalyzer.lint_code, h]
  · simp [CodeAnalyzer.lint_code, CodeAnalyzer.spec_message_after_third_colon,
      h, h3]
  · simp only [CodeAnalyzer.lint_code, List.filterMap_cons,
      List.filterMap_nil]
    cases hc : pyContains line ':' with
    | false => simp [hc]
    | true =>
      by_cases h3 : 3 ≤ (pySplit ':' line).length <;> simp [hc, h3]

/-- Witness for claim C7: parsing the single line
`"f.py:2:warning: note: y"` yields one issue with path `f.py`, line
`2`, kind `warning` and message `note: y`. -/
theorem lint_code_parsing_amended_witness :
    CodeAnalyzer.lint_code ["f.py:2:warning: note: y"]
      = [{ path := "f.py", line := "2", kind := "warning",
           message := "note: y" }] := by
  have h := (lint_code_parsing_amended "f.py:2:warning: note: y" []).2.1
    (by decide) (by decide)
  exact h

/-- Claim C8: `CodeAnalyzer.format_code` with the `black` style is
idempotent whenever the external black formatter satisfies its
contract that a successfully produced output reformats to itself —
input black rejects is returned unchanged rather than raising — and
any style other than `black` and `pep8` raises `ValueError`. -/
theorem format_code_black_idempotent
    (blackFmt : String → Option String) (pep8Fmt : String → String)
    (hid : ∀ s t, blackFmt s = some t → blackFmt t = some t) :
    (∀ code t,
      CodeAnalyzer.format_code blackFmt pep8Fmt code "black" = .ok t →
        CodeAnalyzer.format_code blackFmt pep8Fmt t "black" = .ok t)
    ∧ (∀ style, style ≠ "black" → style ≠ "pep8" → ∀ code,
        CodeAnalyzer.format_code blackFmt pep8Fmt code style
          = .error (.unsupportedStyle style)) := by
  constructor
  · intro code t hct
    cases hb : blackFmt code with
    | some u =>
      have ht : t = u := by
        simp [CodeAnalyzer.format_code, hb] at hct
        exact hct.symm
      subst ht
      simp [CodeAnalyzer.format_code, hid code t hb]
    | none =>
      have ht : t = code := by
        simp [CodeAnalyzer.format_code, hb] at hct
        exact hct.symm
      subst ht
      simp [CodeAnalyzer.format_code, hb]
  · intro style h1 h2 code
    simp [CodeAnalyzer.format_code, h1, h2]

/-- Witness for claim C8: with an identity-like black collaborator
(which satisfies the contract), requesting the unsupported style
`cobol` raises the invalid-argument error. -/
theorem format_code_black_idempotent_witness :
    CodeAnalyzer.format_code (fun s => some s) (fun s => s) "x = 1" "cobol"
      = .error (.unsupportedStyle "cobol") :=
  (format_code_black_idempotent (fun s => some s) (fun s => s)
    (fun _ _ _ => rfl)).2
    "cobol" (by decide) (by decide) "x = 1"
